import Mathlib

/-!
# CaseHub front end — verification of the request/response and auth-session contract

Shallow embedding of the CaseHub single-page front end:

* a JSON value model with a serializer and parser mirroring `JSON.stringify`
  / `JSON.parse` (numbers are modelled as integers, the only numeric shapes the
  auth-session contract stores);
* the auth session store (`src/frontend/src/services/auth.ts`);
* the router guard (`router.beforeEach` and the route table);
* the HTTP wrapper `request` (`src/unnamed/part_003`);
* the login handler (`src/frontend/src/views/LoginView.vue`);
* the student-view action handlers (`src/unnamed/part_000`), where each async
  handler is embedded as its synchronous prefix up to the first `await`
  (a state plus the issued request, if any), with the post-response
  continuation embedded separately where a property concerns it;
* the admin-view handlers `loadFiles` / `loadData` (`src/unnamed/part_001`),
  embedded as functions of the view state and the outcome of the HTTP call.
-/

namespace CaseHub

/-! ## JSON values

`JSON.parse` produces `null`, booleans, numbers, strings, arrays and objects.
Numbers are modelled as integers (`Int`): every number the auth-session
contract serializes is an integer id, and JavaScript prints integers in the
safe range in plain decimal.  Object fields keep insertion order, as
`JSON.stringify` does. -/

inductive Json where
  | null : Json
  | bool (b : Bool) : Json
  | num (n : Int) : Json
  | str (s : String) : Json
  | arr (items : List Json) : Json
  | obj (fields : List (String × Json)) : Json
deriving Inhabited

/-- JavaScript truthiness of a JSON value (`undefined` is represented by
`Option.none` at use sites). -/
def jsTruthy : Json → Bool
  | .null => false
  | .bool b => b
  | .num n => n != 0
  | .str s => s != ""
  | .arr _ => true
  | .obj _ => true

/-- Property read `o[k]` on a JSON value: `none` models `undefined`
(non-objects and absent keys).  On duplicate keys the last one wins, as in
`JSON.parse`. -/
def jgetFields : List (String × Json) → String → Option Json
  | [], _ => none
  | (k, v) :: rest, key =>
    match jgetFields rest key with
    | some v' => some v'
    | none => if k = key then some v else none

def jget : Json → String → Option Json
  | .obj fs, key => jgetFields fs key
  | _, _ => none

mutual
/-- JavaScript `String(x)` conversion of a JSON value. -/
def jsToString : Json → String
  | .null => "null"
  | .bool true => "true"
  | .bool false => "false"
  | .num n => toString n
  | .str s => s
  | .arr items => jsArrJoin items
  | .obj _ => "[object Object]"

/-- `Array.prototype.toString`, i.e. `join(",")`. -/
def jsArrJoin : List Json → String
  | [] => ""
  | [j] => jsToString j
  | j :: rest => jsToString j ++ "," ++ jsArrJoin rest
end

/-- Template-literal interpolation `\x7b$...\x7d` of a possibly-`undefined`
value. -/
def jsTemplate : Option Json → String
  | none => "undefined"
  | some j => jsToString j

/-- `a || b` for strings (the left operand is falsy exactly when empty). -/
def jsOrStr (a b : String) : String := if a = "" then b else a

/-- JavaScript `String.prototype.trim` over the character list (ASCII
whitespace; the untrimmed inputs here are form fields). -/
def jsWsChar (c : Char) : Bool := c.toNat = 32 || (9 ≤ c.toNat && c.toNat ≤ 13)

def jsTrim (s : String) : String :=
  String.mk (((s.data.dropWhile jsWsChar).reverse.dropWhile jsWsChar).reverse)

/-! ## `JSON.stringify`: character escaping and printing -/

/-- Hexadecimal digit, lowercase, as produced by `JSON.stringify`'s
`\u00XX` escapes. -/
def hexDig (n : Nat) : Char :=
  if n < 10 then Char.ofNat (48 + n) else Char.ofNat (87 + n)

/-- How `JSON.stringify` escapes one character inside a string literal. -/
def escCharList (c : Char) : List Char :=
  if c = '"' then ['\\', '"']
  else if c = '\\' then ['\\', '\\']
  else if c.toNat = 8 then ['\\', 'b']
  else if c.toNat = 9 then ['\\', 't']
  else if c.toNat = 10 then ['\\', 'n']
  else if c.toNat = 12 then ['\\', 'f']
  else if c.toNat = 13 then ['\\', 'r']
  else if c.toNat < 32 then
    ['\\', 'u', '0', '0', hexDig (c.toNat / 16), hexDig (c.toNat % 16)]
  else [c]

def escBody : List Char → List Char
  | [] => []
  | c :: cs => escCharList c ++ escBody cs

/-- Decimal digits, most significant first; the fuel argument only bounds
the recursion depth and is irrelevant once it exceeds the number. -/
def natToCharsF : Nat → Nat → List Char
  | 0, _ => []
  | fuel + 1, n =>
    if n < 10 then [Char.ofNat (48 + n)]
    else natToCharsF fuel (n / 10) ++ [Char.ofNat (48 + n % 10)]

/-- Decimal digits of a natural number, most significant first. -/
def natToChars (n : Nat) : List Char := natToCharsF (n + 1) n

theorem natToCharsF_fuel_irrel (n : Nat) :
    ∀ fuel, n < fuel → natToCharsF fuel n = natToCharsF (n + 1) n := by
  induction n using Nat.strong_induction_on with
  | _ n ih =>
    intro fuel hf
    match fuel with
    | f + 1 =>
      rw [natToCharsF, natToCharsF]
      by_cases h : n < 10
      · rw [if_pos h, if_pos h]
      · rw [if_neg h, if_neg h]
        have hdiv : n / 10 < n := Nat.div_lt_self (by omega) (by omega)
        rw [ih (n / 10) hdiv f (by omega), ih (n / 10) hdiv n (by omega)]

theorem natToChars_unfold (n : Nat) :
    natToChars n = if n < 10 then [Char.ofNat (48 + n)]
      else natToChars (n / 10) ++ [Char.ofNat (48 + n % 10)] := by
  show natToCharsF (n + 1) n = _
  rw [natToCharsF]
  by_cases h : n < 10
  · rw [if_pos h, if_pos h]
  · rw [if_neg h, if_neg h]
    have hdiv : n / 10 < n := Nat.div_lt_self (by omega) (by omega)
    rw [natToCharsF_fuel_irrel (n / 10) n (by omega)]
    rfl

/-- Decimal form of an integer, as JavaScript prints safe integers. -/
def intToChars : Int → List Char
  | .ofNat m => natToChars m
  | .negSucc m => '-' :: natToChars (m + 1)

mutual
/-- `JSON.stringify(v)` (no indentation), as a character list. -/
def printVal : Json → List Char
  | .null => 'n' :: ['u', 'l', 'l']
  | .bool true => 't' :: ['r', 'u', 'e']
  | .bool false => 'f' :: ['a', 'l', 's', 'e']
  | .num n => intToChars n
  | .str s => '"' :: (escBody s.data ++ ['"'])
  | .arr items => '[' :: (printItems items ++ [']'])
  | .obj fields => '{' :: (printMembersJ fields ++ ['}'])

def printItems : List Json → List Char
  | [] => []
  | [j] => printVal j
  | j :: rest => printVal j ++ ',' :: printItems rest

def printMembersJ : List (String × Json) → List Char
  | [] => []
  | [(k, v)] => '"' :: (escBody k.data ++ ['"']) ++ ':' :: printVal v
  | (k, v) :: rest =>
    ('"' :: (escBody k.data ++ ['"']) ++ ':' :: printVal v) ++ ',' :: printMembersJ rest
end

def jsonStringify (j : Json) : String := String.mk (printVal j)

/-! ## `JSON.parse` -/

/-- JSON insignificant whitespace. -/
def isWsC (c : Char) : Bool :=
  c.toNat = 32 || c.toNat = 9 || c.toNat = 10 || c.toNat = 13

def skipWs : List Char → List Char
  | [] => []
  | c :: cs => if isWsC c then skipWs cs else c :: cs

def hexVal (c : Char) : Option Nat :=
  if 48 ≤ c.toNat ∧ c.toNat ≤ 57 then some (c.toNat - 48)
  else if 97 ≤ c.toNat ∧ c.toNat ≤ 102 then some (c.toNat - 87)
  else if 65 ≤ c.toNat ∧ c.toNat ≤ 70 then some (c.toNat - 55)
  else none

/-- Single-character JSON escapes (`\u` is handled separately). -/
def unescC (e : Char) : Option Char :=
  if e = '"' then some '"'
  else if e = '\\' then some '\\'
  else if e = '/' then some '/'
  else if e = 'b' then some (Char.ofNat 8)
  else if e = 'f' then some (Char.ofNat 12)
  else if e = 'n' then some (Char.ofNat 10)
  else if e = 'r' then some (Char.ofNat 13)
  else if e = 't' then some (Char.ofNat 9)
  else none

/-- Body of a JSON string literal, after the opening quote; returns the decoded
characters and the remainder after the closing quote. -/
def parseStrBody : List Char → Option (List Char × List Char)
  | [] => none
  | c :: rest =>
    if c = '"' then some ([], rest)
    else if c = '\\' then
      match rest with
      | [] => none
      | e :: rest2 =>
        if e = 'u' then
          match rest2 with
          | a :: b :: c3 :: d :: rest3 =>
            match hexVal a, hexVal b, hexVal c3, hexVal d with
            | some ha, some hb, some hc, some hd =>
              match parseStrBody rest3 with
              | some (tail, rem) =>
                some (Char.ofNat (ha * 4096 + hb * 256 + hc * 16 + hd) :: tail, rem)
              | none => none
            | _, _, _, _ => none
          | _ => none
        else
          match unescC e with
          | some u =>
            match parseStrBody rest2 with
            | some (tail, rem) => some (u :: tail, rem)
            | none => none
          | none => none
    else if c.toNat < 32 then none
    else
      match parseStrBody rest with
      | some (tail, rem) => some (c :: tail, rem)
      | none => none

/-- Consume an expected literal. -/
def dropLit : List Char → List Char → Option (List Char)
  | [], cs => some cs
  | _ :: _, [] => none
  | p :: ps, c :: cs => if c = p then dropLit ps cs else none

def isDigitC (c : Char) : Bool := 48 ≤ c.toNat && c.toNat ≤ 57

/-- Maximal leading run of decimal digits. -/
def takeDigits : List Char → List Char × List Char
  | [] => ([], [])
  | c :: cs =>
    if isDigitC c then
      let p := takeDigits cs
      (c :: p.1, p.2)
    else ([], c :: cs)

def digitsToNat (ds : List Char) : Nat :=
  ds.foldl (fun acc c => acc * 10 + (c.toNat - 48)) 0

/-- Non-negative JSON integer (rejecting a redundant leading zero). -/
def parseNatNum (cs : List Char) : Option (Nat × List Char) :=
  let p := takeDigits cs
  match p.1 with
  | [] => none
  | [d] => some (d.toNat - 48, p.2)
  | d :: _ :: _ => if d = '0' then none else some (digitsToNat p.1, p.2)

/-- JSON integer with optional leading minus sign. -/
def parseIntNum (cs : List Char) : Option (Int × List Char) :=
  match cs with
  | [] => none
  | c :: rest =>
    if c = '-' then (parseNatNum rest).map (fun p => (-(Int.ofNat p.1), p.2))
    else (parseNatNum cs).map (fun p => (Int.ofNat p.1, p.2))

mutual
/-- Fuel-indexed JSON value parser (the fuel only bounds nesting of the
grammar's recursion; `jsonParse` supplies enough for any input it accepts). -/
def parseVal : Nat → List Char → Option (Json × List Char)
  | 0, _ => none
  | fuel + 1, cs =>
    match skipWs cs with
    | [] => none
    | c :: rest =>
      if c = '{' then
        match skipWs rest with
        | [] => none
        | c2 :: rest2 =>
          if c2 = '}' then some (.obj [], rest2)
          else
            match parseMembersF fuel (c2 :: rest2) with
            | some (fields, rem) => some (.obj fields, rem)
            | none => none
      else if c = '[' then
        match skipWs rest with
        | [] => none
        | c2 :: rest2 =>
          if c2 = ']' then some (.arr [], rest2)
          else
            match parseItemsF fuel (c2 :: rest2) with
            | some (items, rem) => some (.arr items, rem)
            | none => none
      else if c = '"' then
        match parseStrBody rest with
        | some (chars, rem) => some (.str (String.mk chars), rem)
        | none => none
      else if c = 't' then
        match dropLit ['r', 'u', 'e'] rest with
        | some rem => some (.bool true, rem)
        | none => none
      else if c = 'f' then
        match dropLit ['a', 'l', 's', 'e'] rest with
        | some rem => some (.bool false, rem)
        | none => none
      else if c = 'n' then
        match dropLit ['u', 'l', 'l'] rest with
        | some rem => some (.null, rem)
        | none => none
      else
        match parseIntNum (c :: rest) with
        | some (n, rem) => some (.num n, rem)
        | none => none

/-- One or more `"key": value` members followed by `}`. -/
def parseMembersF : Nat → List Char → Option (List (String × Json) × List Char)
  | 0, _ => none
  | fuel + 1, cs =>
    match skipWs cs with
    | [] => none
    | c :: rest =>
      if c = '"' then
        match parseStrBody rest with
        | some (kchars, rest2) =>
          match skipWs rest2 with
          | [] => none
          | c2 :: rest3 =>
            if c2 = ':' then
              match parseVal fuel rest3 with
              | some (v, rest4) =>
                match skipWs rest4 with
                | [] => none
                | c3 :: rest5 =>
                  if c3 = ',' then
                    match parseMembersF fuel rest5 with
                    | some (fields, rem) => some ((String.mk kchars, v) :: fields, rem)
                    | none => none
                  else if c3 = '}' then some ([(String.mk kchars, v)], rest5)
                  else none
              | none => none
            else none
        | none => none
      else none

/-- One or more array elements followed by `]`. -/
def parseItemsF : Nat → List Char → Option (List Json × List Char)
  | 0, _ => none
  | fuel + 1, cs =>
    match parseVal fuel cs with
    | some (v, rest) =>
      match skipWs rest with
      | [] => none
      | c :: rest2 =>
        if c = ',' then
          match parseItemsF fuel rest2 with
          | some (items, rem) => some (v :: items, rem)
          | none => none
        else if c = ']' then some ([v], rest2)
        else none
    | none => none
end

/-- `JSON.parse`, returning `none` where JavaScript would throw a
`SyntaxError`. -/
def jsonParse (s : String) : Option Json :=
  match parseVal (s.data.length + 1) s.data with
  | some (j, rest) => if skipWs rest = [] then some j else none
  | none => none

/-! ## Round trip of the JSON string-literal encoding -/

theorem skipWs_cons (c : Char) (cs : List Char) (h : isWsC c = false) :
    skipWs (c :: cs) = c :: cs := by simp [skipWs, h]

theorem hexVal_hexDig : ∀ m : Nat, m < 16 → hexVal (hexDig m) = some m := by decide

theorem parseStrBody_hex (a b c3 d : Char) (na nb nc nd : Nat) (t : List Char)
    (ha : hexVal a = some na) (hb : hexVal b = some nb)
    (hc : hexVal c3 = some nc) (hd : hexVal d = some nd) :
    parseStrBody ('\\' :: 'u' :: a :: b :: c3 :: d :: t) =
      match parseStrBody t with
      | some (l, r) => some (Char.ofNat (na * 4096 + nb * 256 + nc * 16 + nd) :: l, r)
      | none => none := by
  rw [parseStrBody.eq_def]
  simp [ha, hb, hc, hd]

theorem parseStrBody_escChar (c : Char) (t : List Char) :
    parseStrBody (escCharList c ++ t) =
      match parseStrBody t with
      | some (l, r) => some (c :: l, r)
      | none => none := by
  unfold escCharList
  split_ifs with h1 h2 h3 h4 h5 h6 h7 h8
  · subst h1; rw [parseStrBody.eq_def]; simp [unescC]
  · subst h2; rw [parseStrBody.eq_def]; simp [unescC]
  · have hc : Char.ofNat 8 = c := h3 ▸ Char.ofNat_toNat c
    rw [← hc, parseStrBody.eq_def]; simp [unescC]
  · have hc : Char.ofNat 9 = c := h4 ▸ Char.ofNat_toNat c
    rw [← hc, parseStrBody.eq_def]; simp [unescC]
  · have hc : Char.ofNat 10 = c := h5 ▸ Char.ofNat_toNat c
    rw [← hc, parseStrBody.eq_def]; simp [unescC]
  · have hc : Char.ofNat 12 = c := h6 ▸ Char.ofNat_toNat c
    rw [← hc, parseStrBody.eq_def]; simp [unescC]
  · have hc : Char.ofNat 13 = c := h7 ▸ Char.ofNat_toNat c
    rw [← hc, parseStrBody.eq_def]; simp [unescC]
  · show parseStrBody ('\\' :: 'u' :: '0' :: '0' :: hexDig (c.toNat / 16) :: hexDig (c.toNat % 16) :: t) = _
    rw [parseStrBody_hex '0' '0' _ _ 0 0 (c.toNat / 16) (c.toNat % 16) t rfl rfl
      (hexVal_hexDig _ (by omega)) (hexVal_hexDig _ (Nat.mod_lt _ (by omega)))]
    have he : 0 * 4096 + 0 * 256 + c.toNat / 16 * 16 + c.toNat % 16 = c.toNat := by omega
    rw [he, Char.ofNat_toNat]
  · show parseStrBody (c :: t) = _
    rw [parseStrBody.eq_def]
    simp [h1, h2, h8]

theorem parseStrBody_escBody (l : List Char) (rest : List Char) :
    parseStrBody (escBody l ++ '"' :: rest) = some (l, rest) := by
  induction l with
  | nil => rw [escBody, List.nil_append, parseStrBody.eq_def]; simp
  | cons c cs ih =>
    rw [escBody, List.append_assoc, parseStrBody_escChar, ih]

/-! ## Round trip of decimal integer printing -/

theorem natToChars_ne_nil (n : Nat) : natToChars n ≠ [] := by
  rw [natToChars_unfold]
  split <;> simp

theorem digitChar_isDigit : ∀ k : Nat, k < 10 → isDigitC (Char.ofNat (48 + k)) = true := by
  decide

theorem digitChar_toNat : ∀ k : Nat, k < 10 → (Char.ofNat (48 + k)).toNat = 48 + k := by
  decide

theorem digitChar_ne_zero : ∀ k : Nat, 1 ≤ k → k < 10 → Char.ofNat (48 + k) ≠ '0' := by
  decide

theorem natToChars_digits (n : Nat) : ∀ c ∈ natToChars n, isDigitC c = true := by
  induction n using Nat.strong_induction_on with
  | _ n ih =>
    rw [natToChars_unfold]
    split
    next h =>
      intro c hc
      simp at hc
      subst hc
      exact digitChar_isDigit n h
    next h =>
      intro c hc
      simp at hc
      rcases hc with hc | hc
      · exact ih (n / 10) (Nat.div_lt_self (by omega) (by omega)) c hc
      · subst hc
        exact digitChar_isDigit (n % 10) (Nat.mod_lt _ (by omega))

theorem digitsToNat_append_one (xs : List Char) (c : Char) :
    digitsToNat (xs ++ [c]) = digitsToNat xs * 10 + (c.toNat - 48) := by
  simp [digitsToNat, List.foldl_append]

theorem digitsToNat_natToChars (n : Nat) : digitsToNat (natToChars n) = n := by
  induction n using Nat.strong_induction_on with
  | _ n ih =>
    rw [natToChars_unfold]
    split
    next h =>
      simp [digitsToNat, digitChar_toNat n h]
    next h =>
      rw [digitsToNat_append_one, ih (n / 10) (Nat.div_lt_self (by omega) (by omega)),
        digitChar_toNat (n % 10) (Nat.mod_lt _ (by omega))]
      omega

theorem natToChars_head_ne_zero (n : Nat) (hn : 1 ≤ n) :
    ∀ d t, natToChars n = d :: t → d ≠ '0' := by
  induction n using Nat.strong_induction_on with
  | _ n ih =>
    rw [natToChars_unfold]
    split
    next h =>
      intro d t hd
      simp at hd
      rw [← hd.1]
      exact digitChar_ne_zero n hn h
    next h =>
      intro d t hd
      rcases hhead : natToChars (n / 10) with _ | ⟨a, t'⟩
      · exact absurd hhead (natToChars_ne_nil _)
      · rw [hhead] at hd
        simp at hd
        rw [← hd.1]
        exact ih (n / 10) (Nat.div_lt_self (by omega) (by omega))
          (by omega) a t' hhead

/-- The remainder after a printed number must not begin with another digit. -/
def noDigitHead : List Char → Prop
  | [] => True
  | c :: _ => isDigitC c = false

theorem takeDigits_append (ds rest : List Char) (h : ∀ c ∈ ds, isDigitC c = true)
    (h2 : noDigitHead rest) : takeDigits (ds ++ rest) = (ds, rest) := by
  induction ds with
  | nil =>
    cases rest with
    | nil => rfl
    | cons c t => simpa [takeDigits, noDigitHead] using (by simpa [noDigitHead] using h2)
  | cons d ds' ih =>
    have hd : isDigitC d = true := h d (by simp)
    simp only [List.cons_append, takeDigits, hd, if_pos, List.append_eq]
    rw [ih (fun c hc => h c (by simp [hc]))]

theorem parseNatNum_natToChars (n : Nat) (rest : List Char) (h : noDigitHead rest) :
    parseNatNum (natToChars n ++ rest) = some (n, rest) := by
  have htd := takeDigits_append (natToChars n) rest (natToChars_digits n) h
  simp only [parseNatNum, htd]
  rcases hn : natToChars n with _ | ⟨d, t⟩
  · exact absurd hn (natToChars_ne_nil n)
  · cases t with
    | nil =>
      have := digitsToNat_natToChars n
      rw [hn] at this
      simp [digitsToNat] at this
      simp [this]
    | cons d2 t2 =>
      have hge : ¬n < 10 := by
        intro hlt
        rw [natToChars_unfold, if_pos hlt] at hn
        simp at hn
      have hne := natToChars_head_ne_zero n (by omega) d (d2 :: t2) hn
      have := digitsToNat_natToChars n
      rw [hn] at this
      show (if d = '0' then none else some (digitsToNat (d :: d2 :: t2), rest)) = some (n, rest)
      rw [if_neg hne, this]

theorem digit_ne_dash (c : Char) (h : isDigitC c = true) : c ≠ '-' := by
  intro hc
  subst hc
  exact absurd h (by decide)

theorem parseIntNum_intToChars (n : Int) (rest : List Char) (h : noDigitHead rest) :
    parseIntNum (intToChars n ++ rest) = some (n, rest) := by
  cases n with
  | ofNat m =>
    have hpn := parseNatNum_natToChars m rest h
    simp only [intToChars]
    rcases hn : natToChars m with _ | ⟨d, t⟩
    · exact absurd hn (natToChars_ne_nil m)
    · have hd : isDigitC d = true := by
        have := natToChars_digits m
        rw [hn] at this
        exact this d (by simp)
      rw [hn] at hpn
      simp only [List.cons_append, parseIntNum, if_neg (digit_ne_dash d hd)]
      rw [← List.cons_append, hpn]
      rfl
  | negSucc m =>
    have hpn := parseNatNum_natToChars (m + 1) rest h
    simp only [intToChars, List.cons_append, parseIntNum, if_pos rfl, hpn]
    simp [Int.negSucc_eq]

theorem mkData (s : String) : String.mk s.data = s := by
  cases s
  rfl

/-! ## Round trip of `JSON.parse` over `JSON.stringify` output

Proved for the value shapes the auth store serializes: objects whose field
values are scalars (null, booleans, integers, strings). -/

def isScalar : Json → Bool
  | .null => true
  | .bool _ => true
  | .num _ => true
  | .str _ => true
  | .arr _ => false
  | .obj _ => false

theorem digit_ne_starters (c : Char) (h : isDigitC c = true) :
    isWsC c = false ∧ c ≠ '{' ∧ c ≠ '[' ∧ c ≠ '"' ∧ c ≠ 't' ∧ c ≠ 'f' ∧ c ≠ 'n' := by
  simp only [isDigitC, Bool.and_eq_true, decide_eq_true_eq] at h
  refine ⟨?_, ?_, ?_, ?_, ?_, ?_, ?_⟩
  · simp only [isWsC, Bool.or_eq_false_iff, decide_eq_false_iff_not]
    omega
  all_goals intro hc; subst hc; revert h; decide

theorem parseVal_eq_num (f : Nat) (c : Char) (cs : List Char)
    (hws : isWsC c = false) (h1 : c ≠ '{') (h2 : c ≠ '[') (h3 : c ≠ '"')
    (h4 : c ≠ 't') (h5 : c ≠ 'f') (h6 : c ≠ 'n') :
    parseVal (f + 1) (c :: cs) =
      match parseIntNum (c :: cs) with
      | some (n, rem) => some (.num n, rem)
      | none => none := by
  rw [parseVal.eq_def]
  simp [skipWs, hws, h1, h2, h3, h4, h5, h6]

theorem parseVal_scalar (f : Nat) (v : Json) (rest : List Char)
    (hv : isScalar v = true) (h : noDigitHead rest) :
    parseVal (f + 1) (printVal v ++ rest) = some (v, rest) := by
  cases v with
  | null => rw [parseVal.eq_def]; simp [printVal, skipWs, isWsC, dropLit]
  | bool b =>
    cases b <;> (rw [parseVal.eq_def]; simp [printVal, skipWs, isWsC, dropLit])
  | str s =>
    rw [parseVal.eq_def]
    simp only [printVal, List.cons_append, List.append_assoc, List.nil_append]
    rw [skipWs_cons _ _ (by decide)]
    simp only [Char.reduceEq, reduceIte, List.singleton_append]
    rw [parseStrBody_escBody]
  | num n =>
    have hp := parseIntNum_intToChars n rest h
    cases n with
    | ofNat m =>
      rcases hn : natToChars m with _ | ⟨d, t⟩
      · exact absurd hn (natToChars_ne_nil m)
      · have hd : isDigitC d = true := by
          have := natToChars_digits m
          rw [hn] at this
          exact this d (by simp)
        obtain ⟨hws, h1, h2, h3, h4, h5, h6⟩ := digit_ne_starters d hd
        have hshape : printVal (.num (Int.ofNat m)) ++ rest = d :: (t ++ rest) := by
          simp [printVal, intToChars, hn]
        rw [hshape, parseVal_eq_num f d (t ++ rest) hws h1 h2 h3 h4 h5 h6]
        have hback : (d :: (t ++ rest)) = intToChars (Int.ofNat m) ++ rest := by
          simp [intToChars, hn]
        rw [hback, hp]
    | negSucc m =>
      have hshape : printVal (.num (Int.negSucc m)) ++ rest =
          '-' :: (natToChars (m + 1) ++ rest) := by
        simp [printVal, intToChars]
      rw [hshape, parseVal_eq_num f '-' _ (by decide) (by decide) (by decide) (by decide)
        (by decide) (by decide) (by decide)]
      have hback : ('-' :: (natToChars (m + 1) ++ rest)) = intToChars (Int.negSucc m) ++ rest := by
        simp [intToChars]
      rw [hback, hp]
  | arr items => simp [isScalar] at hv
  | obj fields => simp [isScalar] at hv

def scalarFields (fields : List (String × Json)) : Prop := ∀ p ∈ fields, isScalar p.2 = true

theorem parseMembersF_print (fields : List (String × Json)) :
    ∀ (extra : Nat) (rest : List Char), fields ≠ [] → scalarFields fields →
    parseMembersF (extra + fields.length + 1) (printMembersJ fields ++ '}' :: rest) =
      some (fields, rest) := by
  induction fields with
  | nil => intro _ _ hne _; exact absurd rfl hne
  | cons p tail ih =>
    intro extra rest _ hs
    obtain ⟨k, v⟩ := p
    have hv : isScalar v = true := hs (k, v) (by simp)
    cases tail with
    | nil =>
      show parseMembersF (extra + 1 + 1) _ = _
      rw [parseMembersF.eq_def]
      simp only [printMembersJ, List.cons_append, List.append_assoc, List.nil_append,
        List.singleton_append]
      rw [skipWs_cons _ _ (by decide)]
      simp only [Char.reduceEq, reduceIte]
      rw [parseStrBody_escBody]
      simp only []
      rw [skipWs_cons _ _ (by decide)]
      simp only [Char.reduceEq, reduceIte]
      rw [parseVal_scalar (extra + 0) v ('}' :: rest) hv (by simp [noDigitHead, isDigitC])]
      simp only []
      rw [skipWs_cons _ _ (by decide)]
      simp [mkData]
    | cons p2 tail2 =>
      have harith : extra + ((k, v) :: p2 :: tail2).length + 1 =
          (extra + (p2 :: tail2).length + 1) + 1 := by
        simp
        omega
      rw [harith, parseMembersF.eq_def]
      simp only [printMembersJ, List.cons_append, List.append_assoc, List.nil_append,
        List.singleton_append]
      rw [skipWs_cons _ _ (by decide)]
      simp only [Char.reduceEq, reduceIte]
      rw [parseStrBody_escBody]
      simp only []
      rw [skipWs_cons _ _ (by decide)]
      simp only [Char.reduceEq, reduceIte]
      rw [parseVal_scalar (extra + (p2 :: tail2).length) v _ hv
        (by simp [noDigitHead, isDigitC])]
      simp only []
      rw [skipWs_cons _ _ (by decide)]
      simp only [Char.reduceEq, reduceIte]
      rw [ih extra rest (by simp) (fun q hq => hs q (by simp [hq]))]

theorem printMembersJ_head (fields : List (String × Json)) (hne : fields ≠ []) :
    ∃ X, printMembersJ fields = '"' :: X := by
  cases fields with
  | nil => exact absurd rfl hne
  | cons p tail =>
    obtain ⟨k, v⟩ := p
    cases tail with
    | nil => exact ⟨_, rfl⟩
    | cons p2 tail2 => exact ⟨_, rfl⟩

theorem parseVal_printObj (fields : List (String × Json)) (extra : Nat) (rest : List Char)
    (hne : fields ≠ []) (hs : scalarFields fields) :
    parseVal (extra + fields.length + 1 + 1) (printVal (.obj fields) ++ rest) =
      some (.obj fields, rest) := by
  obtain ⟨X, hX⟩ := printMembersJ_head fields hne
  rw [parseVal.eq_def]
  simp only [printVal, List.cons_append, List.append_assoc, List.nil_append,
    List.singleton_append]
  rw [skipWs_cons _ _ (by decide)]
  simp only [Char.reduceEq, reduceIte]
  rw [hX]
  rw [List.cons_append, skipWs_cons _ _ (by decide)]
  simp only [Char.reduceEq, reduceIte]
  have hmem := parseMembersF_print fields extra rest hne hs
  rw [hX] at hmem
  simp only [List.cons_append] at hmem
  rw [hmem]

theorem printMembersJ_length (fields : List (String × Json)) :
    fields.length ≤ (printMembersJ fields).length := by
  induction fields with
  | nil => simp [printMembersJ]
  | cons p tail ih =>
    obtain ⟨k, v⟩ := p
    cases tail with
    | nil => simp [printMembersJ]
    | cons p2 tail2 =>
      rw [show printMembersJ ((k, v) :: p2 :: tail2) =
        ('"' :: (escBody k.data ++ ['"']) ++ ':' :: printVal v) ++
          ',' :: printMembersJ (p2 :: tail2) from rfl]
      simp only [List.length_cons, List.length_append, List.length_singleton,
        List.length_nil] at ih ⊢
      omega

/-- `JSON.parse` inverts `JSON.stringify` on any object with scalar field
values (the shape the auth store persists). -/
theorem jsonParse_stringify_scalarObj (fields : List (String × Json))
    (hne : fields ≠ []) (hs : scalarFields fields) :
    jsonParse (jsonStringify (.obj fields)) = some (.obj fields) := by
  have hlen : fields.length + 2 ≤ (printVal (.obj fields)).length + 1 := by
    have := printMembersJ_length fields
    rw [printVal]
    simp only [List.length_cons, List.length_append, List.length_singleton]
    omega
  have harith : (printVal (.obj fields)).length + 1 =
      ((printVal (.obj fields)).length + 1 - (fields.length + 2)) + fields.length + 1 + 1 := by
    omega
  show (match parseVal ((String.mk (printVal (.obj fields))).data.length + 1)
      (String.mk (printVal (.obj fields))).data with
    | some (j, rest) => if skipWs rest = [] then some j else none
    | none => none) = some (.obj fields)
  rw [show (String.mk (printVal (.obj fields))).data = printVal (.obj fields) from rfl]
  rw [harith]
  rw [show printVal (.obj fields) = printVal (.obj fields) ++ [] from by simp]
  rw [parseVal_printObj fields _ [] hne hs]
  simp [skipWs]

/-! ## Auth session store — `src/frontend/src/services/auth.ts` -/

inductive Role where
  | admin
  | teacher
  | student
deriving DecidableEq, Repr

def Role.toStr : Role → String
  | .admin => "admin"
  | .teacher => "teacher"
  | .student => "student"

def roleOfString (s : String) : Option Role :=
  if s = "admin" then some .admin
  else if s = "teacher" then some .teacher
  else if s = "student" then some .student
  else none

/-- `AuthState` from `auth.ts`: role, id, name, and the optional
`admin_no` / `teacher_no` / `student_no` fields. -/
structure AuthState where
  role : Role
  id : Int
  name : String
  admin_no : Option String := none
  teacher_no : Option String := none
  student_no : Option String := none
deriving DecidableEq, Repr

/-- `localStorage`, restricted to its key-value map behaviour. -/
def LocalStorage : Type := String → Option String

def LocalStorage.getItem (st : LocalStorage) (k : String) : Option String := st k

def LocalStorage.setItem (st : LocalStorage) (k v : String) : LocalStorage :=
  fun k' => if k' = k then some v else st k'

def LocalStorage.removeItem (st : LocalStorage) (k : String) : LocalStorage :=
  fun k' => if k' = k then none else st k'

def emptyStorage : LocalStorage := fun _ => none

def STORAGE_KEY : String := "casehub_auth"

/-- `getAuth`: reads the raw value, returns `null` for an absent or empty
value, `JSON.parse`s it, and returns `null` if parsing throws.  The result of
a successful parse is returned unchecked (the TypeScript `as AuthState` cast
is a no-op), so the model returns the parsed JSON value; a parsed JSON
`null` is the same JavaScript value as the no-session return, hence folded
into `none`. -/
def getAuth (st : LocalStorage) : Option Json :=
  match st.getItem STORAGE_KEY with
  | none => none
  | some raw =>
    if raw = "" then none
    else
      match jsonParse raw with
      | some .null => none
      | some j => some j
      | none => none

/-- `setAuth(state)`: stores `JSON.stringify(state)` under the auth key.
The argument is the JSON value of the object passed in (for a typed
`AuthState` argument, `authToJson` below). -/
def setAuth (st : LocalStorage) (j : Json) : LocalStorage :=
  st.setItem STORAGE_KEY (jsonStringify j)

/-- `clearAuth()`: removes the auth key. -/
def clearAuth (st : LocalStorage) : LocalStorage :=
  st.removeItem STORAGE_KEY

/-- The JSON value `JSON.stringify` serializes for an `AuthState` object
literal: fields in declaration order, `undefined` optional fields dropped. -/
def authToJson (s : AuthState) : Json :=
  .obj (("role", Json.str s.role.toStr) :: ("id", Json.num s.id) ::
    ("name", Json.str s.name) ::
    ((match s.admin_no with
      | some v => [("admin_no", Json.str v)]
      | none => []) ++
     (match s.teacher_no with
      | some v => [("teacher_no", Json.str v)]
      | none => []) ++
     (match s.student_no with
      | some v => [("student_no", Json.str v)]
      | none => [])))

def optStrField (x : Option Json) : Option String :=
  match x with
  | some (.str s) => some s
  | _ => none

/-- Typed reading of a stored session value, per the `AuthState` interface. -/
def authStateOfJson (j : Json) : Option AuthState :=
  match jget j "role", jget j "id", jget j "name" with
  | some (.str r), some (.num i), some (.str n) =>
    match roleOfString r with
    | some ro =>
      some { role := ro, id := i, name := n,
             admin_no := optStrField (jget j "admin_no"),
             teacher_no := optStrField (jget j "teacher_no"),
             student_no := optStrField (jget j "student_no") }
    | none => none
  | _, _, _ => none

/-! ## Router guard — `src/unnamed/part_002` -/

/-- One entry of the `routes` table (component rendering elided). -/
structure RouteRec where
  path : String
  redirectTo : Option String := none
  requiresAuth : Bool := false
  roleMeta : Option Role := none

def routes : List RouteRec :=
  [ { path := "/", redirectTo := some "/login" },
    { path := "/login" },
    { path := "/teacher", requiresAuth := true, roleMeta := some .teacher },
    { path := "/student", requiresAuth := true, roleMeta := some .student },
    { path := "/admin", requiresAuth := true, roleMeta := some .admin } ]

/-- `to.meta` for a navigation target: the matched route's meta, or empty. -/
def metaOf (p : String) : RouteRec :=
  (routes.find? (fun r => r.path == p)).getD { path := p }

inductive GuardResult where
  | allow
  | redirect (target : String)
deriving DecidableEq, Repr

/-- `router.beforeEach`: the guard body, as a function of the target path and
the stored session. -/
def beforeEach (p : String) (auth : Option AuthState) : GuardResult :=
  match auth with
  | some a =>
    if p = "/login" then .redirect ("/" ++ a.role.toStr)
    else if (metaOf p).requiresAuth then
      match (metaOf p).roleMeta with
      | some r => if a.role ≠ r then .redirect ("/" ++ a.role.toStr) else .allow
      | none => .allow
    else .allow
  | none =>
    if (metaOf p).requiresAuth then .redirect "/login" else .allow

/-- The spec's rule table (§4.4 / §8), written from the spec's words: which
role, if any, guards a path. -/
def guardedRoleOf (p : String) : Option Role :=
  if p = "/admin" then some .admin
  else if p = "/teacher" then some .teacher
  else if p = "/student" then some .student
  else none

/-- The spec's rule table (§4.4 / §8), written from the spec's words:
`/login` while authenticated redirects to `/role`; a role-guarded path while
unauthenticated redirects to `/login`; a role-guarded path with a differing
role redirects to `/role`; everything else is allowed through. -/
def specRuleTable (p : String) (auth : Option AuthState) : GuardResult :=
  match auth with
  | some a =>
    if p = "/login" then .redirect ("/" ++ a.role.toStr)
    else
      match guardedRoleOf p with
      | some r => if r ≠ a.role then .redirect ("/" ++ a.role.toStr) else .allow
      | none => .allow
  | none =>
    match guardedRoleOf p with
    | some _ => .redirect "/login"
    | none => .allow

/-! ## HTTP wrapper `request` — `src/unnamed/part_003` -/

/-- An HTTP response as the wrapper observes it: the status code, and the
JSON value of the body (`none` when `resp.json()` would reject). -/
structure HttpResp where
  status : Nat
  body : Option Json

/-- `resp.ok`: status in the inclusive range 200–299. -/
def respOk (r : HttpResp) : Bool := 200 ≤ r.status && r.status ≤ 299

/-- The generic status-coded fallback message. -/
def genericMsg (status : Nat) : String := "请求失败: " ++ toString status

/-- Outcome of one `request(path, options)` call. -/
inductive ReqOutcome where
  /-- 2xx: the parsed JSON body is returned. -/
  | ok (body : Json)
  /-- The wrapper threw `new Error(message)`. -/
  | err (msg : String)
  /-- 2xx with a malformed body: the `resp.json()` rejection propagates. -/
  | jsonFailure
  /-- Non-2xx with a body whose JSON is `null`: `data.detail` throws a
  `TypeError` (the `.catch(() => (\x7b\x7d))` only guards the parse). -/
  | nullDetailError

/-- `request`, as a function of the observed response. -/
def request (resp : HttpResp) : ReqOutcome :=
  if respOk resp then
    match resp.body with
    | some j => .ok j
    | none => .jsonFailure
  else
    match resp.body with
    | some .null => .nullDetailError
    | some data =>
      match jget data "detail" with
      | some v => if jsTruthy v then .err (jsToString v) else .err (genericMsg resp.status)
      | none => .err (genericMsg resp.status)
    | none => .err (genericMsg resp.status)

/-! ## Login handler — `src/frontend/src/views/LoginView.vue` -/

/-- A request issued by a view handler: path, method, query parameters (the
`URLSearchParams` key-value list, before percent-encoding) and JSON body. -/
structure ReqSpec where
  path : String
  method : String := "GET"
  query : List (String × String) := []
  body : Option Json := none

def endpointMap : Role → String
  | .teacher => "/auth/teacher/login"
  | .student => "/auth/student/login"
  | .admin => "/auth/admin/login"

/-- The object literal `handleLogin` passes to `setAuth`, as serialized:
fields in declaration order (`role`, `id`, `name`, `admin_no`, `teacher_no`,
`student_no`), with `undefined` fields dropped by `JSON.stringify`. -/
def buildSession (data : Json) : Json :=
  .obj (List.foldr
    (fun (k : String) acc =>
      match jget data k with
      | some v => (k, v) :: acc
      | none => acc)
    []
    ["role", "id", "name", "admin_no", "teacher_no", "student_no"])

/-- Result of one `handleLogin` run. -/
structure LoginOutcome where
  errorMessage : String
  storage : LocalStorage
  nav : Option String
  req : Option ReqSpec

/-- `handleLogin`, as a function of the form fields, the current storage, and
the outcome of the login request (`Except.error m` is a thrown error whose
`message` is `m`). -/
def handleLogin (role : Role) (account password : String) (st : LocalStorage)
    (outcome : Except String Json) : LoginOutcome :=
  if jsTrim account = "" ∨ jsTrim password = "" then
    { errorMessage := "账号和密码不能为空", storage := st, nav := none, req := none }
  else
    let req : ReqSpec :=
      { path := endpointMap role, method := "POST",
        body := some (.obj [("account", .str (jsTrim account)),
                            ("password", .str (jsTrim password))]) }
    match outcome with
    | .ok data =>
      { errorMessage := "",
        storage := setAuth st (buildSession data),
        nav := some ("/" ++ jsTemplate (jget data "role")),
        req := some req }
    | .error e =>
      { errorMessage := jsOrStr e "登录失败", storage := st, nav := none, req := some req }

/-! ## Student workbench handlers — `src/unnamed/part_000`

Each `async` handler is embedded as its synchronous prefix up to the first
`await` of the HTTP call: a function from the view state to the updated state
plus the request it issues (`none` when it returns early).  The continuation
run when the response settles is embedded separately for `sendMessage`, the
handler whose pending behaviour the spec describes.  `TeacherView.vue`
declares a character-identical `sendMessage` with view role `"teacher"`;
the view role is a parameter. -/

/-- One entry of `messages` (a `MessageItem`, plus the optimistic-send
`pending` flag). -/
structure StudentMsg where
  id : Int
  role : String
  content : String
  created_at : String
  pending : Bool := false
deriving DecidableEq, Repr

/-- The `settings` form state.  `topN` and `similarityThreshold` are
JavaScript numbers bound through `v-model.number`; they are carried as opaque
JSON values (the threshold is a float the integer-number model does not
evaluate). -/
structure StudentSettings where
  systemPrompt : String
  topN : Json
  similarityThreshold : Json
  showCitations : Bool

/-- The mutable view state of the student workbench. -/
structure StudentState where
  classCode : String
  keyword : String
  newConversationName : String
  conversations : List Json
  selectedConversationId : Option Int
  messages : List StudentMsg
  draftMessage : String
  renameValue : String
  errorMessage : String
  isSending : Bool
  settings : StudentSettings

/-- `!x` for `x : number | null`: `null`, `0` (and `NaN`) are falsy. -/
def jsFalsyNum (x : Option Int) : Bool :=
  match x with
  | none => true
  | some v => v == 0

/-- `String(auth?.id || "")`. -/
def jsIdStr (auth : Option AuthState) : String :=
  match auth with
  | none => ""
  | some a => if a.id = 0 then "" else toString a.id

/-- `user_id: auth?.id` in a JSON body: dropped when `undefined`. -/
def userIdField (auth : Option AuthState) : List (String × Json) :=
  match auth with
  | none => []
  | some a => [("user_id", Json.num a.id)]

/-- `refreshConversations`, up to its `await request(...)`. -/
def refreshConversationsStep (auth : Option AuthState) (st : StudentState) :
    StudentState × Option ReqSpec :=
  let st1 := { st with errorMessage := "" }
  if st.classCode = "" then
    ({ st1 with errorMessage := "请先填写班级编号" }, none)
  else
    let baseQ := [("role", "student"), ("user_id", jsIdStr auth),
                  ("class_code", st.classCode), ("include_last_message", "true")]
    let q := if jsTrim st.keyword ≠ "" then baseQ ++ [("keyword", jsTrim st.keyword)] else baseQ
    (st1, some { path := "/conversations", query := q })

/-- `createConversation`, up to its `await request(...)`. -/
def createConversationStep (auth : Option AuthState) (st : StudentState) :
    StudentState × Option ReqSpec :=
  let st1 := { st with errorMessage := "" }
  if st.classCode = "" then
    ({ st1 with errorMessage := "请先填写班级编号" }, none)
  else
    (st1,
     some
       { path := "/conversations", method := "POST",
         body := some (.obj (("role", Json.str "student") :: userIdField auth ++
           [("class_code", Json.str st.classCode)] ++
           (if st.newConversationName = "" then []
            else [("name", Json.str st.newConversationName)]))) })

/-- `sendMessage`, up to its `await request(...)`: validations, the
`isSending` re-entry guard, and the optimistic push of the two placeholder
entries.  `now` is `new Date().toISOString()` and `tempUserId` is
`Date.now()`. -/
def sendMessageStart (viewRole : String) (auth : Option AuthState) (st : StudentState)
    (now : String) (tempUserId : Int) : StudentState × Option ReqSpec :=
  let st1 := { st with errorMessage := "" }
  if jsFalsyNum st.selectedConversationId then
    ({ st1 with errorMessage := "请先选择会话" }, none)
  else
    let convId := st.selectedConversationId.getD 0
    let content := jsTrim st.draftMessage
    if content = "" then
      ({ st1 with errorMessage := "消息不能为空" }, none)
    else if st.isSending then
      (st1, none)
    else
      let tempAssistantId := tempUserId + 1
      ({ st1 with
          isSending := true
          draftMessage := ""
          messages := st.messages ++
            [ { id := tempUserId, role := "user", content := content, created_at := now },
              { id := tempAssistantId, role := "assistant", content := "正在生成回复...",
                created_at := now, pending := true } ] },
       some
         { path := "/conversations/" ++ toString convId ++ "/messages", method := "POST",
           body := some (.obj (("role", Json.str viewRole) :: userIdField auth ++
             [("content", Json.str content)])) })

/-- `Array.prototype.findIndex` (`none` models `-1`). -/
def jsFindIndex (p : StudentMsg → Bool) : List StudentMsg → Option Nat
  | [] => none
  | m :: rest => if p m then some 0 else (jsFindIndex p rest).map (· + 1)

/-- The reconciled placeholder entry:
`(...old, id: data.assistant_message_id || tempAssistantId,
content: data.assistant_answer || "（无回复内容）", pending: false)`. -/
def reconcileMsg (old : StudentMsg) (tempAssistantId : Int) (data : Json) : StudentMsg :=
  { old with
      id :=
        match jget data "assistant_message_id" with
        | some (.num n) => if n = 0 then tempAssistantId else n
        | _ => tempAssistantId
      content :=
        match jget data "assistant_answer" with
        | some (.str s) => if s = "" then "（无回复内容）" else s
        | _ => "（无回复内容）"
      pending := false }

/-- `sendMessage`'s success continuation: reconcile the assistant placeholder
found by its temporary identifier with the response, then drop the
`isSending` flag (the `finally` block).  The follow-up
`refreshConversations` / `loadConversationDetail` awaits are separate
steps. -/
def sendMessageResolve (st : StudentState) (tempAssistantId : Int) (data : Json) :
    StudentState :=
  let st' :=
    match jsFindIndex (fun m => m.id == tempAssistantId) st.messages with
    | some idx =>
      match st.messages.get? idx with
      | some old =>
        { st with messages := (st.messages.set idx (reconcileMsg old tempAssistantId data)) }
      | none => st
    | none => st
  { st' with isSending := false }

/-- `sendMessage`'s failure continuation (the `catch` and `finally`
blocks). -/
def sendMessageReject (st : StudentState) (tempAssistantId : Int) (errMsg : String) :
    StudentState :=
  let st' :=
    match jsFindIndex (fun m => m.id == tempAssistantId) st.messages with
    | some idx =>
      match st.messages.get? idx with
      | some old =>
        { st with messages := (st.messages.set idx
            { old with content := "请求失败，请重试。", pending := false }) }
      | none => st
    | none => st
  { st' with errorMessage := jsOrStr errMsg "发送失败", isSending := false }

/-- `renameConversation`, up to its `await request(...)`. -/
def renameConversationStep (auth : Option AuthState) (st : StudentState) :
    StudentState × Option ReqSpec :=
  let st1 := { st with errorMessage := "" }
  if jsFalsyNum st.selectedConversationId then
    ({ st1 with errorMessage := "请先选择会话" }, none)
  else if jsTrim st.renameValue = "" then
    ({ st1 with errorMessage := "名称不能为空" }, none)
  else
    (st1,
     some
       { path := "/conversations/" ++ toString (st.selectedConversationId.getD 0) ++
           "/rename",
         method := "PUT",
         body := some (.obj (("role", Json.str "student") :: userIdField auth ++
           [("new_name", Json.str (jsTrim st.renameValue)), ("sync_ragflow", Json.bool true),
            ("sync_session", Json.bool true)])) })

/-- `clearConversation`, up to its `await request(...)`. -/
def clearConversationStep (auth : Option AuthState) (st : StudentState) :
    StudentState × Option ReqSpec :=
  let st1 := { st with errorMessage := "" }
  if jsFalsyNum st.selectedConversationId then
    ({ st1 with errorMessage := "请先选择会话" }, none)
  else
    (st1,
     some
       { path := "/conversations/" ++ toString (st.selectedConversationId.getD 0) ++
           "/clear",
         method := "POST",
         body := some (.obj (("role", Json.str "student") :: userIdField auth ++
           [("sync_ragflow", Json.bool true), ("reset_session", Json.bool true)])) })

/-- `deleteConversation`, up to its `await request(...)`. -/
def deleteConversationStep (auth : Option AuthState) (st : StudentState) :
    StudentState × Option ReqSpec :=
  let st1 := { st with errorMessage := "" }
  if jsFalsyNum st.selectedConversationId then
    ({ st1 with errorMessage := "请先选择会话" }, none)
  else
    (st1,
     some
       { path := "/conversations/" ++ toString (st.selectedConversationId.getD 0),
         method := "DELETE",
         body := some (.obj (("role", Json.str "student") :: userIdField auth ++
           [("sync_ragflow", Json.bool true)])) })

/-- `updateSettings`, up to its `await request(...)`. -/
def updateSettingsStep (auth : Option AuthState) (st : StudentState) :
    StudentState × Option ReqSpec :=
  let st1 := { st with errorMessage := "" }
  if jsFalsyNum st.selectedConversationId then
    ({ st1 with errorMessage := "请先选择会话" }, none)
  else
    (st1,
     some
       { path := "/conversations/" ++ toString (st.selectedConversationId.getD 0) ++
           "/settings",
         method := "PUT",
         body := some (.obj (("role", Json.str "student") :: userIdField auth ++
           (if st.settings.systemPrompt = "" then []
            else [("system_prompt", Json.str st.settings.systemPrompt)]) ++
           [("top_n", st.settings.topN),
            ("similarity_threshold", st.settings.similarityThreshold),
            ("show_citations", Json.bool st.settings.showCitations),
            ("sync_ragflow", Json.bool true)])) })

/-! ## Admin workbench handlers `loadData` / `loadFiles` — `src/unnamed/part_001`

The loaders are embedded as functions of the view state and the outcome of
the one HTTP call the taken branch issues.  Response payloads are JSON
values; a response that is not an array where the code maps over one is
outside the API shapes and is represented by the empty list. -/

/-- `a || b` on a possibly-`undefined` JSON value. -/
def jsOrJ (a : Option Json) (b : Json) : Json :=
  match a with
  | some v => if jsTruthy v then v else b
  | none => b

/-- An array response (`data` of type `any[]`). -/
def jsArray (j : Json) : List Json :=
  match j with
  | .arr xs => xs
  | _ => []

/-- `x || []` for a possibly-`undefined` field holding an array. -/
def jsArrField (x : Option Json) : List Json :=
  match x with
  | some (.arr xs) => xs
  | _ => []

/-- `x === s` for a string literal `s`. -/
def jsStrictEqStr (x : Option Json) (s : String) : Bool :=
  match x with
  | some (.str t) => t = s
  | _ => false

/-- Property values read from a response item; an `undefined` read is
represented as `null` (the rows are view state only and are never
serialized, so the two JavaScript values are indistinguishable here). -/
def jfield (x : Option Json) : Json := x.getD .null

/-- `` uploader ? `${uploader.role}#${uploader.no}` : "未知" ``. -/
def buildUploaderTag (uploader : Option Json) : Json :=
  match uploader with
  | some u =>
    if jsTruthy u then
      .str (jsTemplate (jget u "role") ++ "#" ++ jsTemplate (jget u "no"))
    else .str "未知"
  | none => .str "未知"

/-- `buildUploaderShort`: `uploader?.name ? uploader.name : "未知"`. -/
def buildUploaderShort (uploader : Option Json) : Json :=
  match uploader.bind (fun u => jget u "name") with
  | some v => if jsTruthy v then v else .str "未知"
  | none => .str "未知"

/-- One row of `loadPending`'s mapping. -/
def mapPendingRow (item : Json) : Json :=
  .obj [("key", .str ("pending-" ++ jsTemplate (jget item "id"))),
        ("source", .str "pending"),
        ("document_id", jfield (jget item "id")),
        ("name", jfield (jget item "original_name")),
        ("class_name", jsOrJ (jget item "class_name")
          (jsOrJ (jget item "class_code")
            (.str ("班级" ++ jsTemplate (jget item "kb_id"))))),
        ("statusText", .str "待审核"),
        ("time", jfield (jget item "uploaded_at")),
        ("uploader", buildUploaderTag (jget item "uploader")),
        ("uploader_name", buildUploaderShort (jget item "uploader"))]

/-- One row of `loadHistory`'s mapping. -/
def mapHistoryRow (item : Json) : Json :=
  .obj [("key", .str ("history-" ++ jsTemplate (jget item "audit_id"))),
        ("source", .str "history"),
        ("audit_id", jfield (jget item "audit_id")),
        ("document_id", jfield (jget item "document_id")),
        ("name", jfield (jget item "document_name")),
        ("class_name", jsOrJ (jget item "class_name")
          (jsOrJ (jget item "class_code") (.str ""))),
        ("statusText", .str (if jsStrictEqStr (jget item "decision") "approved"
          then "已通过" else "已拒绝")),
        ("time", jfield (jget item "decided_at")),
        ("uploader", buildUploaderTag (jget item "uploader")),
        ("uploader_name", buildUploaderShort (jget item "uploader"))]

/-- One row of `loadTeachers`' mapping. -/
def mapTeacherRow (t : Json) : Json :=
  .obj [("id", jfield (jget t "id")),
        ("no", jfield (jget t "teacher_no")),
        ("name", jfield (jget t "name")),
        ("status", jfield (jget t "status")),
        ("extra", jsOrJ (jget t "email") (.str "-"))]

/-- One row of `loadStudents`' mapping. -/
def mapStudentRow (s : Json) : Json :=
  .obj [("id", jfield (jget s "id")),
        ("no", jfield (jget s "student_no")),
        ("name", jfield (jget s "name")),
        ("status", jfield (jget s "status")),
        ("extra", jsOrJ (jget s "class_name") (jsOrJ (jget s "class_code") (.str "-"))),
        ("class_code", jfield (jget s "class_code")),
        ("email", jsOrJ (jget s "email") (.str ""))]

/-- The mutable view state of the admin workbench (the `section` selector is
`sectionSel`; `section` is reserved in Lean). -/
structure AdminState where
  sectionSel : String
  tab : String
  userTab : String
  errorMessage : String
  auditRows : List Json
  selectedKey : Option String
  auditDetail : Option Json
  teacherRows : List Json
  studentRows : List Json
  classRows : List Json
  fileClassCode : String
  fileRows : List Json

/-- `adminId`: `auth?.id || 0`. -/
def adminId (auth : Option AuthState) : Int :=
  match auth with
  | some a => if a.id = 0 then 0 else a.id
  | none => 0

def pendingReq : ReqSpec := { path := "/audits/pending" }

def historyReq (auth : Option AuthState) : ReqSpec :=
  { path := "/audits",
    query := [("admin_id", toString (adminId auth)), ("page", "1"), ("page_size", "20")] }

def adminListReq (auth : Option AuthState) (p : String) : ReqSpec :=
  { path := p, query := [("admin_id", toString (adminId auth))] }

/-- `loadData`: resets the error, detail and selection, dispatches on the
section/tab selectors to one loader, and either overwrites that loader's
rows with the mapped response or records the caught error message.  When no
branch matches (the `files` section), nothing further runs. -/
def loadData (auth : Option AuthState) (st : AdminState) (outcome : Except String Json) :
    AdminState × Option ReqSpec :=
  let st1 := { st with errorMessage := "", auditDetail := none, selectedKey := none }
  if st.sectionSel = "audit" then
    let req := if st.tab = "pending" then pendingReq else historyReq auth
    match outcome with
    | .ok data =>
      if st.tab = "pending" then
        ({ st1 with auditRows := (jsArray (jsOrJ (some data) (.arr []))).map mapPendingRow },
         some req)
      else
        ({ st1 with auditRows := (jsArrField (jget data "items")).map mapHistoryRow },
         some req)
    | .error e => ({ st1 with errorMessage := jsOrStr e "加载失败" }, some req)
  else if st.sectionSel = "users" then
    let req := if st.userTab = "teacher" then adminListReq auth "/admin/teachers"
      else adminListReq auth "/admin/students"
    match outcome with
    | .ok data =>
      if st.userTab = "teacher" then
        ({ st1 with teacherRows := (jsArray (jsOrJ (some data) (.arr []))).map mapTeacherRow },
         some req)
      else
        ({ st1 with studentRows := (jsArray (jsOrJ (some data) (.arr []))).map mapStudentRow },
         some req)
    | .error e => ({ st1 with errorMessage := jsOrStr e "加载失败" }, some req)
  else if st.sectionSel = "classes" then
    match outcome with
    | .ok data =>
      ({ st1 with classRows := jsArray (jsOrJ (some data) (.arr [])) },
       some (adminListReq auth "/admin/classes"))
    | .error e =>
      ({ st1 with errorMessage := jsOrStr e "加载失败" }, some (adminListReq auth "/admin/classes"))
  else (st1, none)

/-- `loadFiles`: clears the error and the file rows, validates the class
code, and either overwrites the rows with `data.items || []` or records the
caught error message. -/
def loadFiles (auth : Option AuthState) (st : AdminState) (outcome : Except String Json) :
    AdminState × Option ReqSpec :=
  let st1 := { st with errorMessage := "", fileRows := [] }
  if jsTrim st.fileClassCode = "" then
    ({ st1 with errorMessage := "请先填写班级编号" }, none)
  else
    let req : ReqSpec :=
      { path := "/documents",
        query := [("role", "admin"), ("user_id", toString (adminId auth)),
                  ("class_code", jsTrim st.fileClassCode), ("page", "1"),
                  ("page_size", "50")] }
    match outcome with
    | .ok data => ({ st1 with fileRows := jsArrField (jget data "items") }, some req)
    | .error e => ({ st1 with errorMessage := jsOrStr e "查询文件失败" }, some req)

/-! ## Claim theorems -/

theorem metaOf_other (p : String) (h0 : p ≠ "/") (h1 : p ≠ "/login") (h2 : p ≠ "/teacher")
    (h3 : p ≠ "/student") (h4 : p ≠ "/admin") : metaOf p = { path := p } := by
  unfold metaOf routes
  simp only [List.find?]
  rw [show (("/" : String) == p) = false from beq_eq_false_iff_ne.mpr (Ne.symm h0)]
  rw [show (("/login" : String) == p) = false from beq_eq_false_iff_ne.mpr (Ne.symm h1)]
  rw [show (("/teacher" : String) == p) = false from beq_eq_false_iff_ne.mpr (Ne.symm h2)]
  rw [show (("/student" : String) == p) = false from beq_eq_false_iff_ne.mpr (Ne.symm h3)]
  rw [show (("/admin" : String) == p) = false from beq_eq_false_iff_ne.mpr (Ne.symm h4)]
  rfl

/-- **C1.** The router guard is a pure function of the navigation target and
the stored session and matches the spec's rule table exactly: `/login` with a
session redirects to `/` + the session's role; a role-guarded path with no
session redirects to `/login`; a role-guarded path whose required role
differs from the session's role redirects to `/` + the session's role; every
other navigation is allowed through unchanged. -/
theorem C1_router_guard_matches_rule_table (p : String) (auth : Option AuthState) :
    beforeEach p auth = specRuleTable p auth := by
  by_cases h0 : p = "/"
  · subst h0
    cases auth with
    | none => rfl
    | some a => rfl
  by_cases h1 : p = "/login"
  · subst h1
    cases auth with
    | none => rfl
    | some a => rfl
  by_cases h2 : p = "/teacher"
  · subst h2
    cases auth with
    | none => rfl
    | some a =>
      obtain ⟨r, i, nm, x, y, z⟩ := a
      cases r <;> rfl
  by_cases h3 : p = "/student"
  · subst h3
    cases auth with
    | none => rfl
    | some a =>
      obtain ⟨r, i, nm, x, y, z⟩ := a
      cases r <;> rfl
  by_cases h4 : p = "/admin"
  · subst h4
    cases auth with
    | none => rfl
    | some a =>
      obtain ⟨r, i, nm, x, y, z⟩ := a
      cases r <;> rfl
  have hm := metaOf_other p h0 h1 h2 h3 h4
  cases auth with
  | none => simp [beforeEach, specRuleTable, guardedRoleOf, hm, h1, h2, h3, h4]
  | some a => simp [beforeEach, specRuleTable, guardedRoleOf, hm, h1, h2, h3, h4]

theorem stringMk_cons_ne_empty (c : Char) (l : List Char) : String.mk (c :: l) ≠ "" := by
  intro h
  have := congrArg String.data h
  simp at this

theorem authToJson_fields_scalar (s : AuthState) :
    ∃ f1 f2 f3 tail, authToJson s =
      .obj (f1 :: f2 :: f3 :: tail) ∧
      scalarFields (f1 :: f2 :: f3 :: tail) := by
  obtain ⟨r, i, nm, a1, a2, a3⟩ := s
  refine ⟨_, _, _, _, rfl, ?_⟩
  cases a1 <;> cases a2 <;> cases a3 <;>
    simp [scalarFields, isScalar]

theorem getAuth_setAuth (st : LocalStorage) (s : AuthState) :
    getAuth (setAuth st (authToJson s)) = some (authToJson s) := by
  obtain ⟨f1, f2, f3, tail, hshape, hscalar⟩ := authToJson_fields_scalar s
  have hparse := jsonParse_stringify_scalarObj (f1 :: f2 :: f3 :: tail) (by simp) hscalar
  unfold getAuth setAuth LocalStorage.getItem LocalStorage.setItem
  rw [if_pos rfl, hshape]
  simp only []
  rw [if_neg (by
    unfold jsonStringify
    rw [show printVal (.obj (f1 :: f2 :: f3 :: tail)) =
      '{' :: (printMembersJ (f1 :: f2 :: f3 :: tail) ++ ['}']) from rfl]
    exact stringMk_cons_ne_empty _ _)]
  rw [hparse]

theorem authStateOfJson_authToJson (s : AuthState) :
    authStateOfJson (authToJson s) = some s := by
  obtain ⟨r, i, nm, a1, a2, a3⟩ := s
  cases r <;> cases a1 <;> cases a2 <;> cases a3 <;>
    simp [authToJson, authStateOfJson, jget, jgetFields, optStrField, roleOfString, Role.toStr]

/-- **C3.** Auth store round trip: for every session `s`, after `setAuth(s)`
a `getAuth()` returns `s` (same role, id, name and optional number fields);
and after `clearAuth()` a `getAuth()` returns none, whatever was stored. -/
theorem C3_auth_store_round_trip (s : AuthState) (st st' : LocalStorage) :
    (getAuth (setAuth st (authToJson s))).bind authStateOfJson = some s ∧
    getAuth (clearAuth st') = none := by
  constructor
  · rw [getAuth_setAuth]
    exact authStateOfJson_authToJson s
  · unfold getAuth clearAuth LocalStorage.getItem LocalStorage.removeItem
    rw [if_pos rfl]

/-- **C2 (counterexample).** The claim fails at a non-2xx response whose body
is the JSON object with `detail` bound to the empty string: the thrown
message is the generic status-coded fallback, not the (empty) detail
string. -/
theorem C2_counterexample_empty_detail :
    request { status := 400, body := some (.obj [("detail", Json.str "")]) } =
      .err ("请求失败: 400") ∧
    ReqOutcome.err ("请求失败: 400") ≠ ReqOutcome.err "" := by
  constructor
  · rfl
  · intro h
    injection h with h'
    exact absurd h' (by decide)

/-- **C2 (amended).** For every call to the HTTP wrapper: on a non-2xx
response whose body is JSON of the form `\x7b"detail": "X"\x7d` with `X`
non-empty, the call fails with an error whose message is exactly `X` (an
empty `X` is falsy in `data.detail || ...` and falls back to the generic
message); on a non-2xx response with a malformed (non-JSON) body, the call
fails with the generic status-coded fallback message; on a 2xx response it
parses and returns the JSON body. -/
theorem C2_amended_request_error_contract (resp : HttpResp) :
    (∀ fs X, respOk resp = false → resp.body = some (.obj fs) →
      jgetFields fs "detail" = some (.str X) → X ≠ "" → request resp = .err X) ∧
    (respOk resp = false → resp.body = none →
      request resp = .err (genericMsg resp.status)) ∧
    (∀ j, respOk resp = true → resp.body = some j → request resp = .ok j) := by
  refine ⟨?_, ?_, ?_⟩
  · intro fs X hok hb hd hX
    unfold request
    rw [hok, hb]
    simp only [Bool.false_eq_true, reduceIte]
    show (match jget (Json.obj fs) "detail" with
      | some v => if jsTruthy v then ReqOutcome.err (jsToString v)
        else ReqOutcome.err (genericMsg resp.status)
      | none => ReqOutcome.err (genericMsg resp.status)) = ReqOutcome.err X
    rw [show jget (Json.obj fs) "detail" = jgetFields fs "detail" from rfl, hd]
    simp [jsTruthy, jsToString, hX]
  · intro hok hb
    unfold request
    rw [hok, hb]
    rfl
  · intro j hok hb
    unfold request
    rw [hok, hb]
    rfl

theorem C2_amended_request_error_contract_witness :
    request { status := 404, body := some (.obj [("detail", Json.str "X")]) } =
      ReqOutcome.err "X" :=
  (C2_amended_request_error_contract _).1 [("detail", Json.str "X")] "X"
    (by decide) rfl rfl (by decide)

/-- **C8.** `getAuth` is total and never throws: for an absent value, an
empty stored string, or a stored string that is not valid JSON, it returns
none instead of propagating a parse error. -/
theorem C8_getAuth_total (st : LocalStorage) :
    (st.getItem STORAGE_KEY = none → getAuth st = none) ∧
    (∀ raw, st.getItem STORAGE_KEY = some raw → raw = "" → getAuth st = none) ∧
    (∀ raw, st.getItem STORAGE_KEY = some raw → jsonParse raw = none → getAuth st = none) := by
  refine ⟨?_, ?_, ?_⟩
  · intro h
    unfold getAuth
    rw [h]
  · intro raw h hraw
    unfold getAuth
    rw [h]
    simp only []
    rw [if_pos hraw]
  · intro raw h hparse
    unfold getAuth
    rw [h]
    simp only []
    by_cases hraw : raw = ""
    · rw [if_pos hraw]
    · rw [if_neg hraw, hparse]

theorem C8_getAuth_total_witness :
    getAuth (LocalStorage.setItem emptyStorage STORAGE_KEY "nope") = none :=
  (C8_getAuth_total _).2.2 "nope" rfl rfl

/-- **C6.** Every modelled action handler with a required local field, when
invoked while that field is empty (empty class code for
`refreshConversations` / `createConversation`; no selected conversation for
`sendMessage` / `rename` / `clear` / `delete` / `updateSettings`; blank
draft for `sendMessage`; blank account or password for `handleLogin`), sets
an error message and returns without issuing any HTTP request. -/
theorem C6_required_field_validation (auth : Option AuthState) (st : StudentState)
    (lr : Role) (acc pw : String) (lst : LocalStorage) (out : Except String Json)
    (now : String) (tid : Int) :
    (st.classCode = "" →
      refreshConversationsStep auth st =
        ({ st with errorMessage := "请先填写班级编号" }, none)) ∧
    (st.classCode = "" →
      createConversationStep auth st =
        ({ st with errorMessage := "请先填写班级编号" }, none)) ∧
    (jsFalsyNum st.selectedConversationId = true →
      sendMessageStart "student" auth st now tid =
        ({ st with errorMessage := "请先选择会话" }, none)) ∧
    (jsFalsyNum st.selectedConversationId = false → jsTrim st.draftMessage = "" →
      sendMessageStart "student" auth st now tid =
        ({ st with errorMessage := "消息不能为空" }, none)) ∧
    (jsFalsyNum st.selectedConversationId = true →
      renameConversationStep auth st =
        ({ st with errorMessage := "请先选择会话" }, none)) ∧
    (jsFalsyNum st.selectedConversationId = false → jsTrim st.renameValue = "" →
      renameConversationStep auth st =
        ({ st with errorMessage := "名称不能为空" }, none)) ∧
    (jsFalsyNum st.selectedConversationId = true →
      clearConversationStep auth st =
        ({ st with errorMessage := "请先选择会话" }, none)) ∧
    (jsFalsyNum st.selectedConversationId = true →
      deleteConversationStep auth st =
        ({ st with errorMessage := "请先选择会话" }, none)) ∧
    (jsFalsyNum st.selectedConversationId = true →
      updateSettingsStep auth st =
        ({ st with errorMessage := "请先选择会话" }, none)) ∧
    ((jsTrim acc = "" ∨ jsTrim pw = "") →
      handleLogin lr acc pw lst out =
        { errorMessage := "账号和密码不能为空", storage := lst, nav := none, req := none }) := by
  refine ⟨?_, ?_, ?_, ?_, ?_, ?_, ?_, ?_, ?_, ?_⟩
  · intro h; simp [refreshConversationsStep, h]
  · intro h; simp [createConversationStep, h]
  · intro h; simp [sendMessageStart, h]
  · intro h1 h2; simp [sendMessageStart, h1, h2]
  · intro h; simp [renameConversationStep, h]
  · intro h1 h2; simp [renameConversationStep, h1, h2]
  · intro h; simp [clearConversationStep, h]
  · intro h; simp [deleteConversationStep, h]
  · intro h; simp [updateSettingsStep, h]
  · intro h; simp [handleLogin, h]

theorem C6_required_field_validation_witness :
    refreshConversationsStep none
      { classCode := "", keyword := "", newConversationName := "", conversations := [],
        selectedConversationId := none, messages := [], draftMessage := "",
        renameValue := "", errorMessage := "stale", isSending := false,
        settings := { systemPrompt := "", topN := Json.num 5,
                      similarityThreshold := Json.num 0, showCitations := true } } =
      ({ classCode := "", keyword := "", newConversationName := "", conversations := [],
         selectedConversationId := none, messages := [], draftMessage := "",
         renameValue := "", errorMessage := "请先填写班级编号", isSending := false,
         settings := { systemPrompt := "", topN := Json.num 5,
                       similarityThreshold := Json.num 0, showCitations := true } }, none) :=
  (C6_required_field_validation none _ Role.student "" "" emptyStorage
    (Except.error "") "" 0).1 rfl

/-- **C7.** Logging in with role=student, account="S1", password="p" against
a backend responding to `POST /auth/student/login` with
`\x7brole:"student", id:1, name:"A", student_no:"2502S001"\x7d` issues that
request with the trimmed credentials, stores exactly that session in the
auth store, and navigates to `/student`. -/
theorem C7_login_end_to_end :
    (handleLogin .student "S1" "p" emptyStorage
        (.ok (.obj [("role", .str "student"), ("id", .num 1), ("name", .str "A"),
          ("student_no", .str "2502S001")]))).req =
      some { path := "/auth/student/login", method := "POST",
             body := some (.obj [("account", .str "S1"), ("password", .str "p")]) } ∧
    (handleLogin .student "S1" "p" emptyStorage
        (.ok (.obj [("role", .str "student"), ("id", .num 1), ("name", .str "A"),
          ("student_no", .str "2502S001")]))).nav = some "/student" ∧
    (getAuth (handleLogin .student "S1" "p" emptyStorage
        (.ok (.obj [("role", .str "student"), ("id", .num 1), ("name", .str "A"),
          ("student_no", .str "2502S001")]))).storage).bind authStateOfJson =
      some { role := .student, id := 1, name := "A", student_no := some "2502S001" } := by
  refine ⟨rfl, rfl, rfl⟩

theorem jgetFields_none_of_keys (l : List (String × Json)) (key : String)
    (h : ∀ p ∈ l, p.1 ≠ key) : jgetFields l key = none := by
  induction l with
  | nil => rfl
  | cons p t ih =>
    rw [jgetFields, ih (fun q hq => h q (by simp [hq]))]
    rw [if_neg (h p (by simp))]

theorem buildSession_keys (data : Json) (ks : List String) :
    ∀ p ∈ List.foldr
      (fun (k : String) acc =>
        match jget data k with
        | some v => (k, v) :: acc
        | none => acc)
      [] ks, p.1 ∈ ks := by
  induction ks with
  | nil => simp
  | cons k t ih =>
    intro p hp
    rw [List.foldr_cons] at hp
    cases hjk : jget data k with
    | some v =>
      rw [hjk] at hp
      rcases List.mem_cons.mp hp with hp | hp
      · subst hp; simp
      · exact List.mem_cons_of_mem _ (ih p hp)
    | none =>
      rw [hjk] at hp
      exact List.mem_cons_of_mem _ (ih p hp)

/-- **C10.** After a successful login the stored session's role and the
navigation target come from the `role` field of the server's response, not
from the role selected in the form: whatever role the form selected, the
session object is stored with the server's role and navigation goes to
`/` + the server's role. -/
theorem C10_login_uses_server_role (selRole : Role) (acc pw : String) (st : LocalStorage)
    (data : Json) (r : String)
    (hacc : jsTrim acc ≠ "") (hpw : jsTrim pw ≠ "")
    (hrole : jget data "role" = some (.str r)) :
    (handleLogin selRole acc pw st (.ok data)).nav = some ("/" ++ r) ∧
    (handleLogin selRole acc pw st (.ok data)).storage = setAuth st (buildSession data) ∧
    jget (buildSession data) "role" = some (.str r) := by
  have hvalid : ¬(jsTrim acc = "" ∨ jsTrim pw = "") := by
    push_neg
    exact ⟨hacc, hpw⟩
  refine ⟨?_, ?_, ?_⟩
  · unfold handleLogin
    rw [if_neg hvalid]
    simp [jsTemplate, hrole, jsToString]
  · unfold handleLogin
    rw [if_neg hvalid]
  · unfold buildSession
    rw [List.foldr_cons, hrole]
    show jgetFields (("role", Json.str r) :: _) "role" = some (Json.str r)
    rw [jgetFields]
    rw [jgetFields_none_of_keys _ _ (fun p hp => by
      have := buildSession_keys data ["id", "name", "admin_no", "teacher_no", "student_no"] p hp
      intro hk
      rw [hk] at this
      simp at this)]
    rw [if_pos rfl]

theorem C10_login_uses_server_role_witness :
    (handleLogin Role.teacher "T9" "pw" emptyStorage
        (.ok (.obj [("role", .str "student"), ("id", .num 7), ("name", .str "B")]))).nav =
      some "/student" ∧
    jget (buildSession (.obj [("role", .str "student"), ("id", .num 7), ("name", .str "B")]))
        "role" = some (.str "student") := by
  have h := C10_login_uses_server_role Role.teacher "T9" "pw" emptyStorage
    (.obj [("role", .str "student"), ("id", .num 7), ("name", .str "B")]) "student"
    (by decide) (by decide) rfl
  exact ⟨h.1, h.2.2⟩

/-- **C9 (counterexample).** The claim fails at a state with `isSending`
true, a selected conversation, and a blank draft: the handler returns (with
no request, and the frame intact) only after *setting* the error message to
the empty-draft validation message, not immediately after clearing it — the
field validations run before the `isSending` guard. -/
theorem C9_counterexample_validation_precedes_guard :
    (sendMessageStart "student" none
      { classCode := "", keyword := "", newConversationName := "", conversations := [],
        selectedConversationId := some 1, messages := [], draftMessage := "",
        renameValue := "", errorMessage := "", isSending := true,
        settings := { systemPrompt := "", topN := Json.num 5,
                      similarityThreshold := Json.num 0, showCitations := true } }
      "t" 100).1.errorMessage = "消息不能为空" ∧
    "消息不能为空" ≠ "" := by
  exact ⟨rfl, by decide⟩

theorem sendMessageStart_reentry_frame (viewRole : String) (auth : Option AuthState)
    (st : StudentState) (now : String) (tid : Int) (h : st.isSending = true) :
    (sendMessageStart viewRole auth st now tid).2 = none ∧
    (sendMessageStart viewRole auth st now tid).1.messages = st.messages ∧
    (sendMessageStart viewRole auth st now tid).1.draftMessage = st.draftMessage ∧
    (sendMessageStart viewRole auth st now tid).1.isSending = st.isSending ∧
    (jsFalsyNum st.selectedConversationId = false → jsTrim st.draftMessage ≠ "" →
      sendMessageStart viewRole auth st now tid = ({ st with errorMessage := "" }, none)) := by
  by_cases h1 : jsFalsyNum st.selectedConversationId = true
  · refine ⟨?_, ?_, ?_, ?_, ?_⟩ <;> simp [sendMessageStart, h1, h]
  · have h1' : jsFalsyNum st.selectedConversationId = false := by
      revert h1
      cases jsFalsyNum st.selectedConversationId <;> simp
    by_cases h2 : jsTrim st.draftMessage = ""
    · refine ⟨?_, ?_, ?_, ?_, ?_⟩ <;> simp [sendMessageStart, h1', h2, h]
    · refine ⟨?_, ?_, ?_, ?_, ?_⟩ <;> simp [sendMessageStart, h1', h2, h]

/-- **C9 (amended).** Calling `sendMessage` while `isSending` is true issues
no HTTP request and leaves the message list, the draft text, its placeholder
entries and the `isSending` flag unchanged; the error message is cleared
first and may then be set only by the two required-field validations, which
run before the `isSending` guard — when a conversation is selected and the
draft is non-blank it is left cleared. -/
theorem C9_amended_sendMessage_reentry_frame (viewRole : String) (auth : Option AuthState)
    (st : StudentState) (now : String) (tid : Int) (h : st.isSending = true) :
    (sendMessageStart viewRole auth st now tid).2 = none ∧
    (sendMessageStart viewRole auth st now tid).1.messages = st.messages ∧
    (sendMessageStart viewRole auth st now tid).1.draftMessage = st.draftMessage ∧
    (sendMessageStart viewRole auth st now tid).1.isSending = st.isSending ∧
    (jsFalsyNum st.selectedConversationId = false → jsTrim st.draftMessage ≠ "" →
      sendMessageStart viewRole auth st now tid = ({ st with errorMessage := "" }, none)) :=
  sendMessageStart_reentry_frame viewRole auth st now tid h

theorem C9_amended_sendMessage_reentry_frame_witness :
    sendMessageStart "student" none
      { classCode := "", keyword := "", newConversationName := "", conversations := [],
        selectedConversationId := some 1, messages := [], draftMessage := "hello",
        renameValue := "", errorMessage := "stale", isSending := true,
        settings := { systemPrompt := "", topN := Json.num 5,
                      similarityThreshold := Json.num 0, showCitations := true } }
      "t" 100 =
    ({ classCode := "", keyword := "", newConversationName := "", conversations := [],
       selectedConversationId := some 1, messages := [], draftMessage := "hello",
       renameValue := "", errorMessage := "", isSending := true,
       settings := { systemPrompt := "", topN := Json.num 5,
                     similarityThreshold := Json.num 0, showCitations := true } }, none) :=
  (C9_amended_sendMessage_reentry_frame "student" none _ "t" 100 rfl).2.2.2.2
    rfl (by decide)

theorem jsFindIndex_append (p : StudentMsg → Bool) (pre : List StudentMsg)
    (old : StudentMsg) (post : List StudentMsg)
    (h1 : ∀ m ∈ pre, p m = false) (h2 : p old = true) :
    jsFindIndex p (pre ++ old :: post) = some pre.length := by
  induction pre with
  | nil => simp [jsFindIndex, h2]
  | cons a t ih =>
    rw [List.cons_append, jsFindIndex, h1 a (by simp)]
    simp [ih (fun m hm => h1 m (by simp [hm]))]

theorem get?_append_len {α : Type} (pre : List α) (old : α) (post : List α) :
    (pre ++ old :: post).get? pre.length = some old := by
  induction pre with
  | nil => rfl
  | cons a t ih => simpa using ih

theorem set_append_len {α : Type} (pre : List α) (old x : α) (post : List α) :
    (pre ++ old :: post).set pre.length x = pre ++ x :: post := by
  induction pre with
  | nil => rfl
  | cons a t ih => simp [List.set, ih]

/-- **C4 (counterexample).** The claim fails on an explicit overlapping-send
scenario: after a first send from a valid state is in flight, a second
`sendMessage` invocation issues no request and adds no placeholder entries of
its own — the `isSending` flag deduplicates overlapping sends. -/
theorem C4_counterexample_second_send_blocked :
    (sendMessageStart "student" none
      { classCode := "", keyword := "", newConversationName := "", conversations := [],
        selectedConversationId := some 1, messages := [], draftMessage := "hi",
        renameValue := "", errorMessage := "", isSending := false,
        settings := { systemPrompt := "", topN := Json.num 5,
                      similarityThreshold := Json.num 0, showCitations := true } }
      "t1" 100).2.isSome = true ∧
    (sendMessageStart "student" none
      { (sendMessageStart "student" none
          { classCode := "", keyword := "", newConversationName := "", conversations := [],
            selectedConversationId := some 1, messages := [], draftMessage := "hi",
            renameValue := "", errorMessage := "", isSending := false,
            settings := { systemPrompt := "", topN := Json.num 5,
                          similarityThreshold := Json.num 0, showCitations := true } }
          "t1" 100).1 with draftMessage := "again" }
      "t2" 200).2 = none ∧
    (sendMessageStart "student" none
      { (sendMessageStart "student" none
          { classCode := "", keyword := "", newConversationName := "", conversations := [],
            selectedConversationId := some 1, messages := [], draftMessage := "hi",
            renameValue := "", errorMessage := "", isSending := false,
            settings := { systemPrompt := "", topN := Json.num 5,
                          similarityThreshold := Json.num 0, showCitations := true } }
          "t1" 100).1 with draftMessage := "again" }
      "t2" 200).1.messages =
      (sendMessageStart "student" none
        { classCode := "", keyword := "", newConversationName := "", conversations := [],
          selectedConversationId := some 1, messages := [], draftMessage := "hi",
          renameValue := "", errorMessage := "", isSending := false,
          settings := { systemPrompt := "", topN := Json.num 5,
                        similarityThreshold := Json.num 0, showCitations := true } }
        "t1" 100).1.messages := by
  refine ⟨rfl, rfl, rfl⟩

/-- **C4 (amended).** While a send is pending (`isSending` true), a second
`sendMessage` invocation for the same conversation is deduplicated by the
`isSending` flag: it issues no request and produces no placeholder entries.
The pending send's placeholder still resolves independently by its own
client-generated identifier: whatever surrounds it in the message list, the
resolution step rewrites exactly the entry carrying the temporary assistant
identifier and leaves every other entry in place. -/
theorem C4_amended_overlapping_send_dedup (viewRole : String) (auth : Option AuthState)
    (st : StudentState) (now : String) (tid : Int) (data : Json)
    (pre post : List StudentMsg) (old : StudentMsg)
    (hsending : st.isSending = true)
    (hmsgs : st.messages = pre ++ old :: post)
    (hold : old.id = tid)
    (hpre : ∀ m ∈ pre, m.id ≠ tid) :
    (sendMessageStart viewRole auth st now tid).2 = none ∧
    (sendMessageStart viewRole auth st now tid).1.messages = st.messages ∧
    sendMessageResolve st tid data =
      { st with messages := pre ++ reconcileMsg old tid data :: post,
                isSending := false } := by
  refine ⟨(sendMessageStart_reentry_frame viewRole auth st now tid hsending).1,
    (sendMessageStart_reentry_frame viewRole auth st now tid hsending).2.1, ?_⟩
  unfold sendMessageResolve
  rw [hmsgs, jsFindIndex_append _ pre old post
    (fun m hm => by simp [hpre m hm]) (by simp [hold])]
  simp only [get?_append_len, set_append_len]


theorem C4_amended_overlapping_send_dedup_witness :
    sendMessageResolve
      { classCode := "", keyword := "", newConversationName := "", conversations := [],
        selectedConversationId := some 1,
        messages := [ { id := 100, role := "user", content := "hi", created_at := "t1" },
                      { id := 101, role := "assistant", content := "正在生成回复...",
                        created_at := "t1", pending := true } ],
        draftMessage := "", renameValue := "", errorMessage := "", isSending := true,
        settings := { systemPrompt := "", topN := Json.num 5,
                      similarityThreshold := Json.num 0, showCitations := true } }
      101 (.obj [("assistant_message_id", .num 555), ("assistant_answer", .str "ok")]) =
    { classCode := "", keyword := "", newConversationName := "", conversations := [],
      selectedConversationId := some 1,
      messages := [ { id := 100, role := "user", content := "hi", created_at := "t1" },
                    { id := 555, role := "assistant", content := "ok",
                      created_at := "t1", pending := false } ],
      draftMessage := "", renameValue := "", errorMessage := "", isSending := false,
      settings := { systemPrompt := "", topN := Json.num 5,
                    similarityThreshold := Json.num 0, showCitations := true } } :=
  (C4_amended_overlapping_send_dedup "student" none _ "t2" 101
    (.obj [("assistant_message_id", .num 555), ("assistant_answer", .str "ok")])
    [ { id := 100, role := "user", content := "hi", created_at := "t1" } ] []
    { id := 101, role := "assistant", content := "正在生成回复...",
      created_at := "t1", pending := true }
    rfl rfl rfl (by decide)).2.2

/-- **C5 (counterexample).** The claim fails at `loadFiles` invoked with a
non-empty file list and a failing request: the error is caught and surfaced
inline, but the file rows — cleared unconditionally before the request — do
not return to their pre-handler value. -/
theorem C5_counterexample_loadFiles_clears_rows :
    (loadFiles none
      { sectionSel := "files", tab := "pending", userTab := "teacher",
        errorMessage := "", auditRows := [], selectedKey := none, auditDetail := none,
        teacherRows := [], studentRows := [], classRows := [],
        fileClassCode := "2502", fileRows := [Json.str "doc1"] }
      (.error "boom")).1.errorMessage = "boom" ∧
    (loadFiles none
      { sectionSel := "files", tab := "pending", userTab := "teacher",
        errorMessage := "", auditRows := [], selectedKey := none, auditDetail := none,
        teacherRows := [], studentRows := [], classRows := [],
        fileClassCode := "2502", fileRows := [Json.str "doc1"] }
      (.error "boom")).1.fileRows = [] ∧
    ([Json.str "doc1"] : List Json) ≠ [] := by
  refine ⟨rfl, rfl, by simp⟩

/-- **C5 (amended).** For the cited loaders, a failed HTTP request is caught
inside the handler and surfaced only as the inline error message carrying
the thrown message (or the handler-specific fallback when that message is
empty); the handler does not rethrow, and view state other than the error
message and the fields the handler resets before issuing the request (the
file rows for `loadFiles`; the audit detail and selection for `loadData`) is
left as it was before the handler ran. -/
theorem C5_amended_error_containment (auth : Option AuthState) (st : AdminState)
    (e : String) :
    (jsTrim st.fileClassCode ≠ "" →
      (loadFiles auth st (.error e)).1 =
        { st with errorMessage := jsOrStr e "查询文件失败", fileRows := [] }) ∧
    (st.sectionSel = "audit" →
      (loadData auth st (.error e)).1 =
        { st with errorMessage := jsOrStr e "加载失败", auditDetail := none,
                  selectedKey := none }) ∧
    (st.sectionSel = "users" →
      (loadData auth st (.error e)).1 =
        { st with errorMessage := jsOrStr e "加载失败", auditDetail := none,
                  selectedKey := none }) ∧
    (st.sectionSel = "classes" →
      (loadData auth st (.error e)).1 =
        { st with errorMessage := jsOrStr e "加载失败", auditDetail := none,
                  selectedKey := none }) := by
  refine ⟨?_, ?_, ?_, ?_⟩
  · intro h
    simp [loadFiles, h]
  · intro h
    simp [loadData, h]
  · intro h
    simp [loadData, h]
  · intro h
    simp [loadData, h]

theorem C5_amended_error_containment_witness :
    (loadFiles none
      { sectionSel := "files", tab := "pending", userTab := "teacher",
        errorMessage := "", auditRows := [], selectedKey := none, auditDetail := none,
        teacherRows := [], studentRows := [], classRows := [],
        fileClassCode := "2502", fileRows := [Json.str "doc1"] }
      (.error "boom")).1 =
    { sectionSel := "files", tab := "pending", userTab := "teacher",
      errorMessage := "boom", auditRows := [], selectedKey := none, auditDetail := none,
      teacherRows := [], studentRows := [], classRows := [],
      fileClassCode := "2502", fileRows := [] } :=
  (C5_amended_error_containment none _ "boom").1 (by decide)

end CaseHub
